import Mathlib

/-!
Formal model of the Orbbec point-cloud capture pipeline of this repository
(src/orbbec.rs, consumed by src/main.rs), and theorems settling the
specified properties of profile negotiation, the capture loop, the frame
channel, error handling and teardown.

The device driver (the orbbec_sdk crate) is external to the repository;
its calls are modelled at the interface boundary the program relies on:
each query is a field of a Device record describing the responses the
device gives in one session, and handle-returning calls produce abstract
handle identifiers.
-/

/-- Stream profile as seen by the program. The source only ever inspects a
profile frame rate (ob_video_stream_profile_fps, src/orbbec.rs line 201);
an id field keeps distinct profiles distinguishable. -/
structure StreamProfile where
  id : Nat
  fps : Nat
deriving DecidableEq

/-- Depth-to-color alignment mode, OBAlignMode in the source:
ALIGN_DISABLE, ALIGN_D2C_HW_MODE, ALIGN_D2C_SW_MODE. -/
inductive AlignMode where
  | disabled
  | hwAligned
  | swAligned
deriving DecidableEq

/-- Which depth-profile-list query Orbbec::run issues to the device:
ob_get_d2c_depth_profile_list in HW mode (line 157) or SW mode (line 171),
or the plain depth-sensor list ob_pipeline_get_stream_profile_list
(line 185). -/
inductive DepthQuery where
  | hwAligned
  | swAligned
  | plain
deriving DecidableEq

/-- Responses the device gives to the profile queries of Orbbec::run
(src/orbbec.rs lines 115-223) in one session. colorProfiles = none models
ob_pipeline_get_stream_profile_list(COLOR) reporting an error, the case
the source logs as the device not supporting a color sensor (line 123);
hwList and swList are the lists returned by ob_get_d2c_depth_profile_list
in HW and SW mode, and plainList is the plain depth-sensor list. -/
structure Device where
  colorProfiles : Option (List StreamProfile)
  hwList : List StreamProfile
  swList : List StreamProfile
  plainList : List StreamProfile
deriving DecidableEq

/-- Device boundary model of ob_stream_profile_list_get_profile with index
OB_PROFILE_DEFAULT (lines 138 and 217): the default-selection policy is an
opaque device capability (spec section 4.1 step 2 and section 9), modelled
as the first list entry, none on an empty list. -/
def deviceDefaultProfile (l : List StreamProfile) : Option StreamProfile :=
  l.head?

/-- Device boundary model of ob_stream_profile_list_get_video_stream_profile
with OB_WIDTH_ANY, OB_HEIGHT_ANY, OB_FORMAT_UNKNOWN and a frame rate
(lines 203-210): width, height and format are wildcards, so the query
constrains only the frame rate; modelled as the first profile of the list
with the requested rate, none when no entry matches. -/
def deviceFpsQuery (l : List StreamProfile) (fps : Nat) : Option StreamProfile :=
  l.find? (fun p => p.fps == fps)

/-- Outcome of the profile negotiation in Orbbec::run (lines 115-234). -/
structure NegotiationResult where
  colorProfile : Option StreamProfile
  alignMode : AlignMode
  depthQueries : List DepthQuery
  depthList : List StreamProfile
  depthProfile : Option StreamProfile
  depthEnabled : Bool
deriving DecidableEq

/-- Depth-profile selection of Orbbec::run lines 196-223: when the list
count is positive, first the frame-rate query against the color profile
frame rate (only when a color profile was chosen), then, when that is
null, the device default profile of the list. -/
def selectDepthProfile (colorProfile : Option StreamProfile)
    (depthList : List StreamProfile) : Option StreamProfile :=
  if 0 < depthList.length then
    match
      (match colorProfile with
       | some cp => deviceFpsQuery depthList cp.fps
       | none => none) with
    | some p => some p
    | none => deviceDefaultProfile depthList
  else none

/-- Profile negotiation of Orbbec::run, lines 115-234. The color profile is
the device default of the color list when the color query succeeded
(lines 136-143). align_mode starts at ALIGN_DISABLE (line 152); with a
color profile the HW-aligned depth list is requested and adopted when
non-empty, else the SW-aligned list is requested and adopted when
non-empty, else align_mode stays disabled and depth_profiles remains the
empty SW list (lines 155-183); without a color profile the plain depth
list is requested (lines 184-191). The depth stream is enabled exactly
when the final list count is positive (lines 196-234). -/
def negotiate (d : Device) : NegotiationResult :=
  let colorProfile : Option StreamProfile :=
    match d.colorProfiles with
    | none => none
    | some l => deviceDefaultProfile l
  let step : AlignMode × List DepthQuery × List StreamProfile :=
    match colorProfile with
    | some _ =>
      if 0 < d.hwList.length then
        (AlignMode.hwAligned, [DepthQuery.hwAligned], d.hwList)
      else if 0 < d.swList.length then
        (AlignMode.swAligned, [DepthQuery.hwAligned, DepthQuery.swAligned], d.swList)
      else
        (AlignMode.disabled, [DepthQuery.hwAligned, DepthQuery.swAligned], d.swList)
    | none => (AlignMode.disabled, [DepthQuery.plain], d.plainList)
  { colorProfile := colorProfile
    alignMode := step.1
    depthQueries := step.2.1
    depthList := step.2.2
    depthProfile := selectDepthProfile colorProfile step.2.2
    depthEnabled := 0 < step.2.2.length }

/-- Alignment-mode priority in the words of the spec (section 4.1 / claim
C1): Disabled whenever no color profile exists, else HardwareAligned when
the hardware-aligned list is non-empty, else SoftwareAligned when the
software-aligned list is non-empty, else Disabled. -/
def specAlignMode (colorPresent hwNonempty swNonempty : Bool) : AlignMode :=
  if colorPresent = false then AlignMode.disabled
  else if hwNonempty then AlignMode.hwAligned
  else if swNonempty then AlignMode.swAligned
  else AlignMode.disabled

/-- Claim C1: for every combination of device responses, the alignment mode
chosen by negotiation is HardwareAligned when the hardware-aligned depth
list is non-empty, else SoftwareAligned when the software-aligned depth
list is non-empty, else Disabled, and Disabled whenever no color profile
exists. -/
theorem c1_alignment_mode_priority (d : Device) :
    (negotiate d).alignMode =
      specAlignMode (negotiate d).colorProfile.isSome
        (!d.hwList.isEmpty) (!d.swList.isEmpty) := by
  unfold negotiate specAlignMode deviceDefaultProfile
  cases h : d.colorProfiles with
  | none => simp
  | some l =>
    cases l with
    | nil => simp
    | cons a t =>
      cases hw : d.hwList <;> cases sw : d.swList <;> simp [List.head?]

/-- Device used to refute claim C4: a color profile exists, both aligned
depth lists are empty, and the plain depth-sensor list is non-empty. -/
def deviceC4 : Device :=
  { colorProfiles := some [⟨0, 30⟩]
    hwList := []
    swList := []
    plainList := [⟨1, 30⟩] }

/-- Claim C4, counterexample: with a color profile present and both aligned
depth lists empty, negotiation keeps alignment Disabled but never issues
the plain depth-sensor query, and the resulting depth list is not the
plain list (it is the empty software-aligned list), even though the plain
list is non-empty. -/
theorem c4_no_plain_query_counterexample :
    (negotiate deviceC4).alignMode = AlignMode.disabled ∧
    DepthQuery.plain ∉ (negotiate deviceC4).depthQueries ∧
    (negotiate deviceC4).depthList ≠ deviceC4.plainList ∧
    deviceC4.plainList ≠ [] := by decide

/-- Claim C4 as amended: when a color profile exists and both aligned depth
lists are empty, negotiation keeps alignment Disabled, the only depth list
queries issued are the hardware-aligned and software-aligned ones, the
depth list in effect is the empty software-aligned list, no depth profile
is selected, and the depth stream is not enabled; no un-aligned list is
requested. -/
theorem c4_amended_disabled_keeps_aligned_list (d : Device)
    (hc : (negotiate d).colorProfile.isSome = true)
    (hhw : d.hwList = []) (hsw : d.swList = []) :
    (negotiate d).alignMode = AlignMode.disabled ∧
    (negotiate d).depthQueries = [DepthQuery.hwAligned, DepthQuery.swAligned] ∧
    (negotiate d).depthList = [] ∧
    (negotiate d).depthProfile = none ∧
    (negotiate d).depthEnabled = false := by
  unfold negotiate at hc ⊢
  cases h : d.colorProfiles with
  | none => simp [h] at hc
  | some l =>
    cases l with
    | nil => simp [h, deviceDefaultProfile] at hc
    | cons a t => simp [h, hhw, hsw, deviceDefaultProfile, selectDepthProfile]

/-- Witness for the amended claim C4 at the concrete counterexample device. -/
theorem c4_amended_disabled_keeps_aligned_list_witness :
    (negotiate deviceC4).alignMode = AlignMode.disabled ∧
    (negotiate deviceC4).depthQueries = [DepthQuery.hwAligned, DepthQuery.swAligned] ∧
    (negotiate deviceC4).depthList = [] ∧
    (negotiate deviceC4).depthProfile = none ∧
    (negotiate deviceC4).depthEnabled = false :=
  c4_amended_disabled_keeps_aligned_list deviceC4 (by decide) (by decide) (by decide)

/-- Claim C5: with a chosen color profile and a non-empty depth list, the
negotiator selects a depth profile whose frame rate equals the color
profile frame rate when one exists in the list (width, height and format
unconstrained), and otherwise the device default profile of that list. -/
theorem c5_depth_profile_fps_match (d : Device) (cp : StreamProfile)
    (hc : (negotiate d).colorProfile = some cp)
    (hne : (negotiate d).depthList ≠ []) :
    ((∃ p ∈ (negotiate d).depthList, p.fps = cp.fps) →
      ∃ q, (negotiate d).depthProfile = some q ∧
        q ∈ (negotiate d).depthList ∧ q.fps = cp.fps) ∧
    ((∀ p ∈ (negotiate d).depthList, p.fps ≠ cp.fps) →
      (negotiate d).depthProfile = deviceDefaultProfile (negotiate d).depthList) := by
  have hdp : (negotiate d).depthProfile =
      selectDepthProfile (negotiate d).colorProfile (negotiate d).depthList := by
    unfold negotiate
    rfl
  rw [hdp, hc]
  set l := (negotiate d).depthList with hl
  have hlen : 0 < l.length := List.length_pos.mpr hne
  have hsel : selectDepthProfile (some cp) l =
      match deviceFpsQuery l cp.fps with
      | some p => some p
      | none => deviceDefaultProfile l := by
    unfold selectDepthProfile
    rw [if_pos hlen]
  rw [hsel]
  constructor
  · rintro ⟨p, hp, hfps⟩
    cases hfind : deviceFpsQuery l cp.fps with
    | none =>
      exfalso
      unfold deviceFpsQuery at hfind
      rw [List.find?_eq_none] at hfind
      exact absurd (by simpa using hfps) (hfind p hp)
    | some q =>
      refine ⟨q, rfl, ?_, ?_⟩
      · exact List.mem_of_find?_eq_some hfind
      · have := List.find?_some hfind
        simpa using this
  · intro hnone
    cases hfind : deviceFpsQuery l cp.fps with
    | none => rfl
    | some q =>
      exfalso
      have hq := List.find?_some hfind
      have hqm := List.mem_of_find?_eq_some hfind
      exact hnone q hqm (by simpa using hq)

/-- Device used to witness claim C5: color at 30 fps, hardware-aligned
depth list containing a 15 fps profile and a 30 fps profile. -/
def deviceC5 : Device :=
  { colorProfiles := some [⟨0, 30⟩]
    hwList := [⟨1, 15⟩, ⟨2, 30⟩]
    swList := []
    plainList := [] }

/-- Witness for claim C5: on deviceC5 the negotiator selects the 30 fps
depth profile matching the color frame rate. -/
theorem c5_depth_profile_fps_match_witness :
    ∃ q, (negotiate deviceC5).depthProfile = some q ∧
      q ∈ (negotiate deviceC5).depthList ∧ q.fps = 30 :=
  (c5_depth_profile_fps_match deviceC5 ⟨0, 30⟩ (by decide) (by decide)).1
    ⟨⟨2, 30⟩, by decide, rfl⟩

/-- State of the frame channel created by std mpsc channel() in
OrbbecRx::default (src/orbbec.rs line 44): an unbounded first-in-first-out
queue whose sender never blocks. The state is the list of pending batches,
oldest first. -/
def Chan (α : Type) : Type := List α

/-- Behaviour of tx_points.send(batch) (line 331) on the unbounded std mpsc
channel: the batch is appended to the pending queue; the call completes
without waiting for the consumer. -/
def publish {α : Type} (b : α) (q : Chan α) : Chan α :=
  List.append q [b]

/-- Behaviour of rx.try_recv().ok() in OrbbecRx::try_get_data (line 38):
the oldest pending batch is removed and returned, or none when the queue
is empty, without blocking. -/
def tryTake {α : Type} (q : Chan α) : Option α × Chan α :=
  match q with
  | [] => (none, [])
  | b :: rest => (some b, rest)

/-- Publishing a list of batches in order to the channel. -/
def publishAll {α : Type} (bs : List α) (q : Chan α) : Chan α :=
  bs.foldl (fun acc b => publish b acc) q

/-- Number of pending batches in a channel state. -/
def pendingCount {α : Type} (q : Chan α) : Nat :=
  List.length q

/-- Repeated tryTake until it returns none, fuel-bounded: the sequence of
batches a consumer draining the channel observes, in observation order. -/
def drainFuel {α : Type} : Nat → Chan α → List α
  | 0, _ => []
  | n + 1, q =>
    match tryTake q with
    | (none, _) => []
    | (some b, rest) => b :: drainFuel n rest

/-- Claim C3, counterexample: publishing two batches with no intervening
take leaves two pending batches in the frame channel, so the channel does
not hold at most one pending batch, and neither publish waited for the
consumer (both publish calls completed, producing this state). -/
theorem c3_bounded_depth_counterexample :
    ¬ pendingCount (publish 1 (publish 0 ([] : Chan Nat))) ≤ 1 := by
  decide

/-- Claim C3 as amended: the frame channel is unbounded; publishing never
blocks and simply appends, so after publishing any list of batches into a
channel with k pending batches there are k plus that many pending, with no
a-priori bound. -/
theorem c3_amended_unbounded_channel {α : Type} (bs : List α) (q : Chan α) :
    pendingCount (publishAll bs q) = pendingCount q + bs.length := by
  induction bs generalizing q with
  | nil => simp [publishAll]
  | cons b t ih =>
    have : publishAll (b :: t) q = publishAll t (publish b q) := rfl
    rw [this, ih (publish b q)]
    simp [pendingCount, publish]
    omega

/-- Auxiliary: publishing a list of batches into an empty channel leaves
exactly that list pending, in order. -/
theorem publishAll_nil_eq {α : Type} (bs : List α) (q : Chan α) :
    publishAll bs q = List.append q bs := by
  induction bs generalizing q with
  | nil => simp [publishAll]
  | cons b t ih =>
    have h1 : publishAll (b :: t) q = publishAll t (publish b q) := rfl
    rw [h1, ih (publish b q)]
    simp [publish]

/-- Auxiliary: draining a channel with exactly enough fuel returns the
pending batches in queue order. -/
theorem drainFuel_eq {α : Type} (q : Chan α) :
    drainFuel (pendingCount q) q = q := by
  induction q with
  | nil => rfl
  | cons b rest ih =>
    show drainFuel (rest.length + 1) (b :: rest) = b :: rest
    unfold drainFuel
    show (b :: drainFuel rest.length (tryTake (b :: rest)).2) = b :: rest
    have h2 : (tryTake (b :: rest)).2 = rest := rfl
    rw [h2]
    exact congrArg (b :: ·) ih

/-- Claim C9: tryTake on an empty channel returns none without blocking;
after one publish, exactly one tryTake returns that batch and an
immediately following tryTake returns none; and drained batches come back
exactly in the order they were published, each exactly once. -/
theorem c9_try_take_fifo_exactly_once {α : Type} :
    (tryTake ([] : Chan α) = (none, [])) ∧
    (∀ b : α, tryTake (publish b ([] : Chan α)) = (some b, []) ∧
      tryTake (tryTake (publish b ([] : Chan α))).2 = (none, [])) ∧
    (∀ bs : List α,
      drainFuel (pendingCount (publishAll bs ([] : Chan α)))
        (publishAll bs ([] : Chan α)) = bs) := by
  refine ⟨rfl, fun b => ⟨rfl, rfl⟩, fun bs => ?_⟩
  rw [drainFuel_eq, publishAll_nil_eq]
  rfl

/-- Observable actions of one capture-loop iteration of Orbbec::run
(lines 273-340), in program order. Handles of frames and sub-frames are
abstract identifiers. -/
inductive Event where
  | waitFrameset (timeoutMs : Nat) (result : Option Nat)
  | acquire (h : Nat)
  | getValueScale (h : Nat)
  | release (h : Nat)
  | setPositionScale
  | setPointFormat
  | filterProcess (result : Option Nat)
  | publishBatch (len : Nat)
deriving DecidableEq

/-- Responses the device gives during one capture-loop iteration:
ob_pipeline_wait_for_frameset (none on timeout), ob_frameset_depth_frame
(none when the frameset has no depth sub-frame), ob_filter_process (none
when the filter yields no points frame), and the points frame payload size
in bytes from ob_frame_data_size. -/
structure IterResponse where
  frameset : Option Nat
  depthFrame : Option Nat
  pointsFrame : Option Nat
  pointsDataSize : Nat
deriving DecidableEq

/-- Byte size of one OBColorPoint record: six 4-byte float fields
x, y, z, r, g, b (std mem size_of of OBColorPoint in line 323). -/
def obColorPointSize : Nat := 24

/-- Point record OBColorPoint: position and color components. The program
never computes with the float components, it only copies them, so they are
modelled as abstract integers. -/
structure OBColorPoint where
  x : Int
  y : Int
  z : Int
  r : Int
  g : Int
  b : Int
deriving DecidableEq

/-- One capture-loop iteration body after the shutdown poll (Orbbec::run
lines 273-340): wait for a frameset with a 100 ms timeout; when one
arrives, get the depth sub-frame, and when that is absent the iteration
ends at the continue of line 285 without releasing the frameset; otherwise
read the depth value scale, release the depth sub-frame, configure the
filter scale and point format, run the filter, and when it yields a points
frame, read its payload, publish a batch of payload size divided by the
point record size, release the points frame, and finally release the
frameset (line 338). -/
def captureIter (resp : IterResponse) : List Event :=
  Event.waitFrameset 100 resp.frameset ::
    match resp.frameset with
    | none => []
    | some f =>
      Event.acquire f ::
        match resp.depthFrame with
        | none => []
        | some dh =>
          [Event.acquire dh, Event.getValueScale dh, Event.release dh,
           Event.setPositionScale, Event.setPointFormat,
           Event.filterProcess resp.pointsFrame] ++
          (match resp.pointsFrame with
           | none => []
           | some pf =>
             [Event.acquire pf,
              Event.publishBatch (resp.pointsDataSize / obColorPointSize),
              Event.release pf]) ++
          [Event.release f]

/-- Handles acquired during a trace. -/
def acquiredHandles (t : List Event) : List Nat :=
  t.filterMap fun e =>
    match e with
    | Event.acquire h => some h
    | _ => none

/-- Handles released during a trace. -/
def releasedHandles (t : List Event) : List Nat :=
  t.filterMap fun e =>
    match e with
    | Event.release h => some h
    | _ => none

/-- Iteration in which a frameset arrives but carries no depth sub-frame:
the failing input for claim C2. -/
def iterMissingDepth : IterResponse :=
  { frameset := some 1
    depthFrame := none
    pointsFrame := none
    pointsDataSize := 0 }

/-- Claim C2, evaluated at the failing input: when the frameset is non-null
but the depth sub-frame is absent, the iteration acquires the frameset and
ends, via the continue of line 285, without ever releasing it, so the
release-on-every-path invariant the spec states does not hold in the code;
on the path where the depth sub-frame is present every acquired handle is
released. -/
theorem c2_frameset_leaked_on_missing_depth :
    (1 ∈ acquiredHandles (captureIter iterMissingDepth) ∧
      1 ∉ releasedHandles (captureIter iterMissingDepth)) ∧
    (∀ resp : IterResponse, ∀ f dh : Nat,
      resp.frameset = some f → resp.depthFrame = some dh →
      ∀ h ∈ acquiredHandles (captureIter resp),
        h ∈ releasedHandles (captureIter resp)) := by
  constructor
  · exact ⟨by decide, by decide⟩
  · intro resp f dh hf hd h hmem
    rcases resp with ⟨fs, dfr, pfr, sz⟩
    cases fs with
    | none => simp at hf
    | some f0 =>
      cases dfr with
      | none => simp at hd
      | some dh0 =>
        cases pfr with
        | none =>
          simp [captureIter, acquiredHandles, releasedHandles] at hmem ⊢
          tauto
        | some pf0 =>
          simp [captureIter, acquiredHandles, releasedHandles] at hmem ⊢
          tauto

/-- Iteration in which a frameset, a depth sub-frame and a points frame all
arrive, with a 48 byte points payload. -/
def iterFullFrame : IterResponse :=
  { frameset := some 7
    depthFrame := some 8
    pointsFrame := some 9
    pointsDataSize := 48 }

/-- Witness for the claim C2 evaluation theorem, at the concrete full-frame
iteration: on the depth-present path the frameset handle is released. -/
theorem c2_frameset_leaked_on_missing_depth_witness :
    7 ∈ releasedHandles (captureIter iterFullFrame) :=
  c2_frameset_leaked_on_missing_depth.2 iterFullFrame 7 8 rfl rfl 7 (by decide)

/-- Claim C10: whenever the point-cloud filter yields a non-null points
frame, a batch of length payload size divided by the point record size is
published, regardless of that size; in particular a zero-size payload
publishes an empty batch, and a consumer calling tryTake after an empty
batch is published receives that empty batch. -/
theorem c10_empty_batches_published (resp : IterResponse) (f dh pf : Nat)
    (hf : resp.frameset = some f) (hd : resp.depthFrame = some dh)
    (hp : resp.pointsFrame = some pf) :
    (Event.publishBatch (resp.pointsDataSize / obColorPointSize) ∈
      captureIter resp) ∧
    (resp.pointsDataSize = 0 → Event.publishBatch 0 ∈ captureIter resp) ∧
    (tryTake (publish ([] : List OBColorPoint) ([] : Chan (List OBColorPoint))) =
      (some [], [])) := by
  rcases resp with ⟨fs, dfr, pfr, sz⟩
  cases hf
  cases hd
  cases hp
  refine ⟨?_, ?_, rfl⟩
  · simp [captureIter]
  · intro h0
    cases h0
    simp [captureIter]

/-- Iteration in which the filter yields a points frame with a zero-size
payload. -/
def iterEmptyPoints : IterResponse :=
  { frameset := some 4
    depthFrame := some 5
    pointsFrame := some 6
    pointsDataSize := 0 }

/-- Witness for claim C10 at the concrete zero-payload iteration: the
iteration publishes a batch of length zero. -/
theorem c10_empty_batches_published_witness :
    Event.publishBatch 0 ∈ captureIter iterEmptyPoints :=
  (c10_empty_batches_published iterEmptyPoints 4 5 6 rfl rfl rfl).2.1 rfl

/-- Kind of a teardown call in the Drop implementation of Orbbec
(src/orbbec.rs lines 345-380). -/
inductive TdKind where
  | deleteFilter
  | stopPipeline
  | deletePipeline
  | deleteConfig
  | deleteStreamProfile
  | deleteStreamProfileList
deriving DecidableEq

/-- Handle-holding fields of the Orbbec struct (lines 59-68, omitting the
error slot): each field holds the abstract identifier of the native handle
currently stored there, or none for a null pointer. -/
structure SessionState where
  point_cloud : Option Nat
  ob_pipeline : Option Nat
  ob_config : Option Nat
  depth_profile : Option Nat
  color_profile : Option Nat
  color_profiles : Option Nat
  depth_profiles : Option Nat
deriving DecidableEq

/-- Handle identifiers by acquisition site in Orbbec::run: pipeline 1
(line 107), config 2 (line 111), color profile list 3 (line 115), color
profile 4 (line 138), HW-aligned depth list 5 (line 157), SW-aligned depth
list 6 (line 171), plain depth list 7 (line 185), frame-rate-matched depth
profile 8 (line 203), default depth profile 9 (line 217), device 10
(line 238), point-cloud filter 11 (line 249). Each site runs at most once
per session. setupHandles returns the field state at the end of setup and
the list of handles acquired, in acquisition order. -/
def setupHandles (d : Device) : SessionState × List Nat :=
  let cpOpt : Option StreamProfile :=
    match d.colorProfiles with
    | none => none
    | some l => deviceDefaultProfile l
  let colorProfilesH : Option Nat :=
    match d.colorProfiles with
    | none => none
    | some _ => some 3
  let colorProfileH : Option Nat :=
    match cpOpt with
    | none => none
    | some _ => some 4
  let colorAcq : List Nat :=
    (match d.colorProfiles with
     | none => []
     | some _ => [3]) ++
    (match cpOpt with
     | none => []
     | some _ => [4])
  let depthStep : Option Nat × List StreamProfile × List Nat :=
    match cpOpt with
    | some _ =>
      if 0 < d.hwList.length then (some 5, d.hwList, [5])
      else (some 6, d.swList, [5, 6])
    | none => (some 7, d.plainList, [7])
  let dpStep : Option Nat × List Nat :=
    if 0 < depthStep.2.1.length then
      match cpOpt with
      | some cp =>
        match deviceFpsQuery depthStep.2.1 cp.fps with
        | some _ => (some 8, [8])
        | none => (some 9, [9])
      | none => (some 9, [9])
    else (none, [])
  let s : SessionState :=
    { point_cloud := some 11
      ob_pipeline := some 1
      ob_config := some 2
      depth_profile := dpStep.1
      color_profile := colorProfileH
      color_profiles := colorProfilesH
      depth_profiles := depthStep.1 }
  (s, [1, 2] ++ colorAcq ++ depthStep.2.2 ++ dpStep.2 ++ [10, 11])

/-- The teardown sequence of the Drop implementation of Orbbec
(lines 345-380): release the filter, stop the pipeline, destroy the
pipeline, destroy the config, destroy the depth profile, destroy the color
profile, destroy the color profile list, destroy the depth profile list;
every call is issued unconditionally with whatever the field holds,
including a null handle. -/
def dropOps (s : SessionState) : List (TdKind × Option Nat) :=
  [(TdKind.deleteFilter, s.point_cloud),
   (TdKind.stopPipeline, s.ob_pipeline),
   (TdKind.deletePipeline, s.ob_pipeline),
   (TdKind.deleteConfig, s.ob_config),
   (TdKind.deleteStreamProfile, s.depth_profile),
   (TdKind.deleteStreamProfile, s.color_profile),
   (TdKind.deleteStreamProfileList, s.color_profiles),
   (TdKind.deleteStreamProfileList, s.depth_profiles)]

/-- Handles destroyed by the teardown sequence, in destruction order;
stopping the pipeline is not a destruction. -/
def destroyedHandles (s : SessionState) : List Nat :=
  (dropOps s).filterMap fun op =>
    match op.1 with
    | TdKind.stopPipeline => none
    | _ => op.2

/-- Non-null handles still stored in the session fields. -/
def storedHandles (s : SessionState) : List Nat :=
  [s.point_cloud, s.ob_pipeline, s.ob_config, s.depth_profile,
   s.color_profile, s.color_profiles, s.depth_profiles].filterMap id

/-- Device used to refute claim C6: color sensor present, HW-aligned depth
list empty, SW-aligned list non-empty, so both aligned lists are queried
and the HW list handle is overwritten by the SW list handle. -/
def deviceC6 : Device :=
  { colorProfiles := some [⟨0, 30⟩]
    hwList := []
    swList := [⟨1, 30⟩]
    plainList := [] }

/-- Device used to refute the null-guard part of claim C6: no color sensor
and an empty plain depth list, leaving the depth profile field null. -/
def deviceC6b : Device :=
  { colorProfiles := none
    hwList := []
    swList := []
    plainList := [] }

/-- Claim C6, counterexample: on deviceC6 the HW-aligned depth list handle
(5) and the device handle (10) are successfully created but never
destroyed, the destruction order is not the reverse of the acquisition
order, and on deviceC6b the stream-profile destruction call is issued with
a null handle rather than being skipped, so neither the
destroyed-exactly-once-in-reverse-order invariant nor the null-guard of
the claim holds of the code. -/
theorem c6_teardown_counterexample :
    (5 ∈ (setupHandles deviceC6).2 ∧
      5 ∉ destroyedHandles (setupHandles deviceC6).1) ∧
    (10 ∈ (setupHandles deviceC6).2 ∧
      10 ∉ destroyedHandles (setupHandles deviceC6).1) ∧
    destroyedHandles (setupHandles deviceC6).1 ≠
      ((setupHandles deviceC6).2).reverse ∧
    (TdKind.deleteStreamProfile, (none : Option Nat)) ∈
      dropOps (setupHandles deviceC6b).1 := by
  decide

/-- Claim C6 as amended: teardown issues its calls in exactly the order
release filter, stop pipeline, destroy pipeline, destroy config, destroy
depth profile, destroy color profile, destroy color profile list, destroy
depth profile list; every call is issued unconditionally with the stored
handle, null or not (null-skipping is left to the driver); every handle
still stored in a session field at teardown is destroyed exactly once, in
that fixed field order rather than reverse-acquisition order; a HW-aligned
depth list handle that was overwritten by the SW-aligned list, and the
device handle, are acquired but never destroyed. -/
theorem c6_amended_teardown_order (d : Device) :
    ((dropOps (setupHandles d).1).map Prod.fst =
      [TdKind.deleteFilter, TdKind.stopPipeline, TdKind.deletePipeline,
       TdKind.deleteConfig, TdKind.deleteStreamProfile,
       TdKind.deleteStreamProfile, TdKind.deleteStreamProfileList,
       TdKind.deleteStreamProfileList]) ∧
    (∀ s : SessionState, (dropOps s).length = 8) ∧
    (∀ h ∈ storedHandles (setupHandles d).1,
      (destroyedHandles (setupHandles d).1).count h = 1) ∧
    (d.colorProfiles.isSome ∧ (negotiate d).colorProfile.isSome ∧
        d.hwList = [] →
      5 ∈ (setupHandles d).2 ∧ 5 ∉ destroyedHandles (setupHandles d).1) ∧
    (10 ∈ (setupHandles d).2 ∧ 10 ∉ destroyedHandles (setupHandles d).1) := by
  have hdest : ∀ s : SessionState, destroyedHandles s =
      [s.point_cloud, s.ob_pipeline, s.ob_config, s.depth_profile,
       s.color_profile, s.color_profiles, s.depth_profiles].filterMap id := by
    intro s
    rfl
  refine ⟨rfl, fun s => rfl, ?_, ?_, ?_⟩
  · intro h hmem
    rcases hd : d.colorProfiles with _ | l
    · unfold setupHandles at hmem ⊢
      simp only [hd] at hmem ⊢
      by_cases hp : 0 < d.plainList.length <;>
        simp_all [storedHandles, destroyedHandles, dropOps, hp]
    · cases l with
      | nil =>
        unfold setupHandles at hmem ⊢
        simp only [hd, deviceDefaultProfile] at hmem ⊢
        by_cases hp : 0 < d.plainList.length <;>
          simp_all [storedHandles, destroyedHandles, dropOps, hp,
            List.head?]
      | cons a t =>
        unfold setupHandles at hmem ⊢
        simp only [hd, deviceDefaultProfile, List.head?] at hmem ⊢
        by_cases hw : 0 < d.hwList.length
        · rcases hq : deviceFpsQuery d.hwList a.fps with _ | q <;>
            simp_all [storedHandles, destroyedHandles, dropOps, hw, hq]
        · by_cases hsw : 0 < d.swList.length <;>
            rcases hq : deviceFpsQuery d.swList a.fps with _ | q <;>
            simp_all [storedHandles, destroyedHandles, dropOps, hw, hsw, hq]
  · rintro ⟨hc, hcp, hhw⟩
    rcases hd : d.colorProfiles with _ | l
    · simp [hd] at hc
    · cases l with
      | nil =>
        unfold negotiate at hcp
        simp [hd, deviceDefaultProfile] at hcp
      | cons a t =>
        unfold setupHandles
        simp only [hd, deviceDefaultProfile, List.head?, hhw]
        rcases hq : deviceFpsQuery d.swList a.fps with _ | q <;>
          by_cases hsw : 0 < d.swList.length <;>
          simp_all [destroyedHandles, dropOps, hq, hsw]
  · rcases hd : d.colorProfiles with _ | l
    · unfold setupHandles
      simp only [hd]
      by_cases hp : 0 < d.plainList.length <;>
        simp_all [destroyedHandles, dropOps, hp]
    · cases l with
      | nil =>
        unfold setupHandles
        simp only [hd, deviceDefaultProfile, List.head?]
        by_cases hp : 0 < d.plainList.length <;>
          simp_all [destroyedHandles, dropOps, hp]
      | cons a t =>
        unfold setupHandles
        simp only [hd, deviceDefaultProfile, List.head?]
        by_cases hw : 0 < d.hwList.length
        · rcases hq : deviceFpsQuery d.hwList a.fps with _ | q <;>
            simp_all [destroyedHandles, dropOps, hw, hq]
        · by_cases hsw : 0 < d.swList.length <;>
            rcases hq : deviceFpsQuery d.swList a.fps with _ | q <;>
            simp_all [destroyedHandles, dropOps, hw, hsw, hq]

/-- Witness for the amended claim C6 at the concrete deviceC6: the filter
handle is destroyed exactly once, and the HW list handle leak implication
is discharged. -/
theorem c6_amended_teardown_order_witness :
    (destroyedHandles (setupHandles deviceC6).1).count 11 = 1 ∧
    (5 ∈ (setupHandles deviceC6).2 ∧
      5 ∉ destroyedHandles (setupHandles deviceC6).1) :=
  ⟨(c6_amended_teardown_order deviceC6).2.2.1 11 (by decide),
   (c6_amended_teardown_order deviceC6).2.2.2.1 (by decide)⟩

/-- Operations of the Drop implementation of OrbbecRx (lines 21-26): send
the shutdown signal on the bounded shutdown channel, then join the worker
thread handle. -/
inductive RxOp where
  | sendShutdown
  | joinWorker
deriving DecidableEq

/-- Teardown sequence of the owner: OrbbecRx Drop sends the shutdown signal
and then joins the worker thread before returning. -/
def orbbecRxDrop : List RxOp :=
  [RxOp.sendShutdown, RxOp.joinWorker]

/-- The capture loop of Orbbec::run (lines 264-341): each iteration starts
with the non-blocking shutdown poll rx_shutdown.try_recv (line 265);
when the signal is pending the loop breaks immediately, otherwise the
iteration body runs. The input lists, for each iteration, whether the
shutdown signal is pending at its loop-top poll, and the device responses
of that iteration. -/
def runLoop : List (Bool × IterResponse) → List Event
  | [] => []
  | (pending, resp) :: rest =>
    if pending then [] else captureIter resp ++ runLoop rest

/-- Whether an event is the bounded device wait ob_pipeline_wait_for_frameset. -/
def isWaitEvent : Event → Bool
  | Event.waitFrameset _ _ => true
  | _ => false

/-- The worker thread body (the closure spawned in OrbbecRx::default,
lines 46-49): run the capture loop, and when it exits, the Drop
implementation of Orbbec performs the teardown sequence on the session
state the setup left behind. -/
def workerThread (d : Device) (iters : List (Bool × IterResponse)) :
    List Event × List (TdKind × Option Nat) :=
  (runLoop iters, dropOps (setupHandles d).1)

/-- Auxiliary: the device waits of one iteration body are exactly the one
leading 100 ms bounded wait. -/
theorem captureIter_waits (resp : IterResponse) :
    (captureIter resp).filter isWaitEvent =
      [Event.waitFrameset 100 resp.frameset] := by
  rcases resp with ⟨fs, dfr, pfr, sz⟩
  cases fs with
  | none => rfl
  | some f =>
    cases dfr with
    | none => rfl
    | some dh =>
      cases pfr with
      | none => rfl
      | some pf => rfl

/-- Claim C8: when the shutdown signal is pending at the loop-top poll, the
loop exits at once, producing no further events and in particular issuing
no further device wait; every non-signalled iteration blocks in exactly
one device wait, with the bounded 100 ms timeout argument, so a signal
sent during an iteration is observed after at most that one bounded wait
completes: the number of device waits issued equals the number of
iterations that polled before the signal was pending; once the loop exits
the worker performs the session teardown; and the owner destructor sends
the shutdown signal and then joins the worker thread. -/
theorem c8_shutdown_observed_next_poll :
    (∀ (resp : IterResponse) (rest : List (Bool × IterResponse)),
      runLoop ((true, resp) :: rest) = []) ∧
    (∀ resp : IterResponse,
      (captureIter resp).head? = some (Event.waitFrameset 100 resp.frameset) ∧
      ((captureIter resp).filter isWaitEvent).length = 1) ∧
    (∀ (pre : List (Bool × IterResponse)) (resp : IterResponse)
        (rest : List (Bool × IterResponse)),
      (∀ p ∈ pre, p.1 = false) →
      ((runLoop (pre ++ (true, resp) :: rest)).filter isWaitEvent).length =
        pre.length) ∧
    (∀ (d : Device) (resp : IterResponse) (rest : List (Bool × IterResponse)),
      workerThread d ((true, resp) :: rest) =
        ([], dropOps (setupHandles d).1)) ∧
    orbbecRxDrop = [RxOp.sendShutdown, RxOp.joinWorker] := by
  refine ⟨fun resp rest => rfl, ?_, ?_, ?_, rfl⟩
  · intro resp
    refine ⟨?_, by rw [captureIter_waits resp]; rfl⟩
    rcases resp with ⟨fs, dfr, pfr, sz⟩
    cases fs <;> rfl
  · intro pre resp rest hpre
    induction pre with
    | nil => rfl
    | cons p tail ih =>
      rcases p with ⟨pending, presp⟩
      have hp : pending = false := hpre (pending, presp) (List.mem_cons_self _ _)
      cases hp
      have htail : ∀ q ∈ tail, q.1 = false := fun q hq =>
        hpre q (List.mem_cons_of_mem _ hq)
      show ((runLoop (((false, presp) :: tail) ++ (true, resp) :: rest)).filter
        isWaitEvent).length = tail.length + 1
      have hstep : runLoop (((false, presp) :: tail) ++ (true, resp) :: rest) =
          captureIter presp ++ runLoop (tail ++ (true, resp) :: rest) := rfl
      rw [hstep, List.filter_append, List.length_append, captureIter_waits,
        ih htail]
      simp only [List.length_cons, List.length_nil]
      omega
  · intro d resp rest
    rfl

/-- Witness for claim C8: with one unsignalled iteration before the signal
is observed, exactly one device wait is issued. -/
theorem c8_shutdown_observed_next_poll_witness :
    ((runLoop ([(false, iterFullFrame)] ++
        (true, iterFullFrame) :: [])).filter isWaitEvent).length = 1 :=
  c8_shutdown_observed_next_poll.2.2.1 [(false, iterFullFrame)] iterFullFrame []
    (by decide)

/-- Device-layer call sites of the setup portion of Orbbec::run
(lines 104-258), in program order. setAlignModeDisabled is the call inside
the no-color-sensor branch (line 127); setAlignMode the one at line 232. -/
inductive CallSite where
  | setLoggerSeverity
  | createPipeline
  | createConfig
  | getColorProfileList
  | setAlignModeDisabled
  | getColorDefaultProfile
  | enableColorStream
  | getD2CHwList
  | countHwList
  | getD2CSwList
  | countSwList
  | getPlainDepthList
  | countDepthList
  | getColorFps
  | getVideoDepthProfile
  | getDefaultDepthProfile
  | enableDepthStream
  | setAlignMode
  | getDevice
  | startPipelineWithConfig
  | createPointcloudFilter
  | getCameraParam
  | setCameraParam
deriving DecidableEq

/-- Diagnostic fields carried by an ob_error object and read by
check_error (lines 86-95): ob_error_function, ob_error_args,
ob_error_message and ob_error_exception_type, as abstract values. -/
structure ErrorInfo where
  fn : Nat
  args : Nat
  msg : Nat
  excType : Nat
deriving DecidableEq

/-- What check_error does when the error slot is non-null (lines 85-98):
the four diagnostics of the error object are logged, ob_delete_error runs,
and the process exits with code 1. -/
structure LogExit where
  site : CallSite
  info : ErrorInfo
  deleted : Bool
  exitCode : Nat
deriving DecidableEq


/-- Error-threading state of the setup run: whether the process has exited
(process exit is absorbing: once exit(1) runs nothing later executes), the
pending error slot self.error (holding the site whose error object it
carries, none for a null pointer), and the call sites executed so far. -/
structure RunState where
  exited : Option LogExit
  err : Option CallSite
  trace : List CallSite
deriving DecidableEq

/-- Execution of one device call: when the process has already exited
nothing happens; otherwise the site is recorded as executed and, when the
injected failure is at this site, the error slot is filled with its error
object; a successful call leaves the slot untouched. -/
def runCall (failAt : Option CallSite) (s : CallSite) (st : RunState) :
    RunState :=
  if st.exited.isSome then st
  else
    { st with
      err := if failAt = some s then some s else st.err
      trace := st.trace ++ [s] }

/-- check_error (lines 84-99): when the error slot is non-null, the four
diagnostics of the error object are logged, ob_delete_error runs, and the
process exits with code 1; otherwise execution continues. -/
def checkError (einfo : CallSite → ErrorInfo) (st : RunState) : RunState :=
  if st.exited.isSome then st
  else
    match st.err with
    | some s =>
      { st with
        exited := some { site := s, info := einfo s, deleted := true, exitCode := 1 } }
    | none => st

/-- One checked device call: the call followed by check_error, the pattern
of every call of Orbbec::run except lines 115 and 138. -/
def checkedCall (einfo : CallSite → ErrorInfo) (failAt : Option CallSite)
    (s : CallSite) (st : RunState) : RunState :=
  checkError einfo (runCall failAt s st)

/-- The device reporting no color sensor support: the color profile list
query of line 115 leaves an error object in the slot when the device
lacks the capability. -/
def deviceColorFail (d : Device) (st : RunState) : RunState :=
  if st.exited.isSome then st
  else if d.colorProfiles.isNone then
    { st with err := some CallSite.getColorProfileList }
  else st

/-- The ob_delete_error plus null assignment of lines 124-125: the error
slot is cleared (clearing an already-null slot changes nothing). -/
def clearErr (st : RunState) : RunState :=
  if st.exited.isSome then st else { st with err := none }

/-- State at the end of a setup run that did not exit. -/
structure SetupDone where
  align : AlignMode
  colorProfile : Option StreamProfile
  depthProfile : Option StreamProfile
  colorErrorConsumed : Bool
  executed : List CallSite
deriving DecidableEq

/-- The setup portion of Orbbec::run (lines 104-258) with its error
handling, over device responses d, device-supplied error diagnostics
einfo, and at most one injected device-call failure failAt. Every call is
followed by check_error except the color profile list query of line 115,
whose error is printed, deleted and cleared before alignment is set to
disabled in its error branch (lines 122-133), and the
default-color-profile query of line 138, which no check_error follows
directly, so its error stays in the slot until the next executed
check_error fires. -/
def runChecked (d : Device) (einfo : CallSite → ErrorInfo)
    (failAt : Option CallSite) : Except LogExit SetupDone :=
  let st : RunState := { exited := none, err := none, trace := [] }
  let st := checkedCall einfo failAt CallSite.setLoggerSeverity st
  let st := checkedCall einfo failAt CallSite.createPipeline st
  let st := checkedCall einfo failAt CallSite.createConfig st
  let st := runCall failAt CallSite.getColorProfileList st
  let st := deviceColorFail d st
  let colorErrored : Bool := st.err.isSome
  let st := clearErr st
  let st :=
    if colorErrored then checkedCall einfo failAt CallSite.setAlignModeDisabled st
    else st
  let colorProfiles : Option (List StreamProfile) :=
    if colorErrored then none else d.colorProfiles
  let st :=
    match colorProfiles with
    | none => st
    | some _ => runCall failAt CallSite.getColorDefaultProfile st
  let cpOpt : Option StreamProfile :=
    match colorProfiles with
    | none => none
    | some l =>
      if failAt = some CallSite.getColorDefaultProfile then none
      else deviceDefaultProfile l
  let st :=
    match cpOpt with
    | some _ => checkedCall einfo failAt CallSite.enableColorStream st
    | none => st
  let branchRes : RunState × AlignMode × List StreamProfile :=
    match cpOpt with
    | some _ =>
      let st := checkedCall einfo failAt CallSite.getD2CHwList st
      let st := checkedCall einfo failAt CallSite.countHwList st
      if 0 < d.hwList.length then (st, AlignMode.hwAligned, d.hwList)
      else
        let st := checkedCall einfo failAt CallSite.getD2CSwList st
        let st := checkedCall einfo failAt CallSite.countSwList st
        if 0 < d.swList.length then (st, AlignMode.swAligned, d.swList)
        else (st, AlignMode.disabled, d.swList)
    | none =>
      let st := checkedCall einfo failAt CallSite.getPlainDepthList st
      (st, AlignMode.disabled, d.plainList)
  let st := branchRes.1
  let alignMode := branchRes.2.1
  let depthList := branchRes.2.2
  let st := checkedCall einfo failAt CallSite.countDepthList st
  let dpRes : RunState × Option StreamProfile :=
    if 0 < depthList.length then
      match cpOpt with
      | some cp =>
        let st := checkedCall einfo failAt CallSite.getColorFps st
        let st := checkedCall einfo failAt CallSite.getVideoDepthProfile st
        match deviceFpsQuery depthList cp.fps with
        | some p =>
          let st := checkedCall einfo failAt CallSite.enableDepthStream st
          let st := checkedCall einfo failAt CallSite.setAlignMode st
          (st, some p)
        | none =>
          let st := checkedCall einfo failAt CallSite.getDefaultDepthProfile st
          let st := checkedCall einfo failAt CallSite.enableDepthStream st
          let st := checkedCall einfo failAt CallSite.setAlignMode st
          (st, deviceDefaultProfile depthList)
      | none =>
        let st := checkedCall einfo failAt CallSite.getDefaultDepthProfile st
        let st := checkedCall einfo failAt CallSite.enableDepthStream st
        let st := checkedCall einfo failAt CallSite.setAlignMode st
        (st, deviceDefaultProfile depthList)
    else (st, none)
  let st := dpRes.1
  let depthProfile := dpRes.2
  let st := checkedCall einfo failAt CallSite.getDevice st
  let st := checkedCall einfo failAt CallSite.startPipelineWithConfig st
  let st := checkedCall einfo failAt CallSite.createPointcloudFilter st
  let st := checkedCall einfo failAt CallSite.getCameraParam st
  let st := checkedCall einfo failAt CallSite.setCameraParam st
  match st.exited with
  | some e => Except.error e
  | none =>
    Except.ok
      { align := alignMode
        colorProfile := cpOpt
        depthProfile := depthProfile
        colorErrorConsumed := colorErrored
        executed := st.trace }

/-- Evaluation step: a checked call on a clean running state either exits
with that site (when the failure is injected there) or records the site
and continues. -/
@[simp]
theorem checkedCall_step (einfo : CallSite → ErrorInfo) (f : Option CallSite)
    (s : CallSite) (t : List CallSite) :
    checkedCall einfo f s { exited := none, err := none, trace := t } =
      if f = some s then
        { exited := some { site := s, info := einfo s, deleted := true, exitCode := 1 }
          err := some s
          trace := t ++ [s] }
      else { exited := none, err := none, trace := t ++ [s] } := by
  by_cases h : f = some s <;> simp [checkedCall, runCall, checkError, h]

/-- Evaluation step: a checked call on a running state with a stale pending
error exits, with the new site when the failure is injected there and with
the stale site otherwise. -/
@[simp]
theorem checkedCall_err_step (einfo : CallSite → ErrorInfo) (f : Option CallSite)
    (s e : CallSite) (t : List CallSite) :
    checkedCall einfo f s { exited := none, err := some e, trace := t } =
      (if f = some s then
        { exited := some { site := s, info := einfo s, deleted := true, exitCode := 1 }
          err := some s
          trace := t ++ [s] }
      else
        { exited := some { site := e, info := einfo e, deleted := true, exitCode := 1 }
          err := some e
          trace := t ++ [s] } : RunState) := by
  by_cases h : f = some s <;> simp [checkedCall, runCall, checkError, h]

/-- Evaluation step: after the process has exited nothing happens. -/
@[simp]
theorem checkedCall_exited (einfo : CallSite → ErrorInfo) (f : Option CallSite)
    (s : CallSite) (e : LogExit) (x : Option CallSite) (t : List CallSite) :
    checkedCall einfo f s { exited := some e, err := x, trace := t } =
      { exited := some e, err := x, trace := t } := by
  simp [checkedCall, runCall, checkError]

/-- Evaluation step for an unchecked call on a running state. -/
@[simp]
theorem runCall_step (f : Option CallSite) (s : CallSite) (x : Option CallSite)
    (t : List CallSite) :
    runCall f s { exited := none, err := x, trace := t } =
      { exited := none
        err := if f = some s then some s else x
        trace := t ++ [s] } := by
  simp [runCall]

/-- Evaluation step for an unchecked call after exit. -/
@[simp]
theorem runCall_exited (f : Option CallSite) (s : CallSite) (e : LogExit)
    (x : Option CallSite) (t : List CallSite) :
    runCall f s { exited := some e, err := x, trace := t } =
      { exited := some e, err := x, trace := t } := by
  simp [runCall]

/-- Evaluation step for the device-side color-capability error. -/
@[simp]
theorem deviceColorFail_step (d : Device) (x : Option CallSite)
    (t : List CallSite) :
    deviceColorFail d { exited := none, err := x, trace := t } =
      if d.colorProfiles.isNone then
        { exited := none, err := some CallSite.getColorProfileList, trace := t }
      else { exited := none, err := x, trace := t } := by
  by_cases h : d.colorProfiles.isNone <;> simp [deviceColorFail, h]

/-- Evaluation step for the device-side color-capability error after exit. -/
@[simp]
theorem deviceColorFail_exited (d : Device) (e : LogExit) (x : Option CallSite)
    (t : List CallSite) :
    deviceColorFail d { exited := some e, err := x, trace := t } =
      { exited := some e, err := x, trace := t } := by
  simp [deviceColorFail]

/-- Evaluation step for clearing the error slot on a running state. -/
@[simp]
theorem clearErr_step (x : Option CallSite) (t : List CallSite) :
    clearErr { exited := none, err := x, trace := t } =
      { exited := none, err := none, trace := t } := by
  simp [clearErr]

/-- Evaluation step for clearing the error slot after exit. -/
@[simp]
theorem clearErr_exited (e : LogExit) (x : Option CallSite) (t : List CallSite) :
    clearErr { exited := some e, err := x, trace := t } =
      { exited := some e, err := x, trace := t } := by
  simp [clearErr]

/-- Projection of an if-then-else pair. -/
@[simp]
theorem fst_ite {α β : Type} (c : Prop) [Decidable c] (p q : α × β) :
    (if c then p else q).1 = if c then p.1 else q.1 := by
  split <;> rfl

/-- Projection of an if-then-else pair. -/
@[simp]
theorem snd_ite {α β : Type} (c : Prop) [Decidable c] (p q : α × β) :
    (if c then p else q).2 = if c then p.2 else q.2 := by
  split <;> rfl

/-- Post-condition of the checked setup run: a run that exits did so for an
injected device error at a call other than the color profile list query,
logging that error object with its diagnostics, deleting it and exiting
with code 1; a run that completes executed no failing call other than the
color profile list query, and when the color profile list query failed the
completed run consumed that error and went depth-only with alignment
disabled. -/
def c7Post (einfo : CallSite → ErrorInfo) (failAt : Option CallSite) :
    Except LogExit SetupDone → Prop
  | Except.error r =>
    failAt = some r.site ∧ r.site ≠ CallSite.getColorProfileList ∧
      r.deleted = true ∧ r.info = einfo r.site ∧ r.exitCode = 1
  | Except.ok c =>
    (∀ s, failAt = some s → s ≠ CallSite.getColorProfileList →
      s ∉ c.executed) ∧
    (failAt = some CallSite.getColorProfileList →
      c.align = AlignMode.disabled ∧ c.colorProfile = none ∧
        c.colorErrorConsumed = true)

set_option maxHeartbeats 4000000 in
/-- Every outcome of the checked setup run satisfies the post-condition,
for every device response and every injected single failure. -/
theorem c7RunPost (d : Device) (einfo : CallSite → ErrorInfo)
    (failAt : Option CallSite) :
    c7Post einfo failAt (runChecked d einfo failAt) := by
  rcases d with ⟨cpl, hw, sw, pl⟩
  unfold runChecked
  cases failAt with
  | none =>
    cases cpl with
    | none =>
      by_cases hpl : 0 < pl.length <;> simp_all [c7Post, deviceDefaultProfile]
    | some l =>
      cases l with
      | nil =>
        by_cases hpl : 0 < pl.length <;> simp_all [c7Post, deviceDefaultProfile]
      | cons a t =>
        by_cases hhw : 0 < hw.length
        · cases hq : deviceFpsQuery hw a.fps <;> by_cases hpl : 0 < pl.length <;>
            simp_all [c7Post, deviceDefaultProfile]
        · by_cases hsw : 0 < sw.length
          · cases hq : deviceFpsQuery sw a.fps <;> by_cases hpl : 0 < pl.length <;>
              simp_all [c7Post, deviceDefaultProfile]
          · by_cases hpl : 0 < pl.length <;>
              simp_all [c7Post, deviceDefaultProfile]
  | some s =>
    cases s <;>
    · cases cpl with
      | none =>
        by_cases hpl : 0 < pl.length <;> simp_all [c7Post, deviceDefaultProfile]
      | some l =>
        cases l with
        | nil =>
          by_cases hpl : 0 < pl.length <;> simp_all [c7Post, deviceDefaultProfile]
        | cons a t =>
          by_cases hhw : 0 < hw.length
          · cases hq : deviceFpsQuery hw a.fps <;> by_cases hpl : 0 < pl.length <;>
              simp_all [c7Post, deviceDefaultProfile]
          · by_cases hsw : 0 < sw.length
            · cases hq : deviceFpsQuery sw a.fps <;> by_cases hpl : 0 < pl.length <;>
                simp_all [c7Post, deviceDefaultProfile]
            · by_cases hpl : 0 < pl.length <;>
                simp_all [c7Post, deviceDefaultProfile]

/-- Claim C7: a run with no device error completes; every run that
terminates the process does so for a device call that reported an error,
is not the color profile list query, and logs the error object
diagnostics, deletes it and exits with code 1; a completed run executed no
erroring call other than the color profile list query; and when the color
profile list query reports the error, the run completes with that error
consumed, alignment disabled and no color profile. -/
theorem c7_fatal_error_terminates_except_color (d : Device)
    (einfo : CallSite → ErrorInfo) (failAt : Option CallSite) :
    ((runChecked d einfo none).isOk = true) ∧
    (∀ r : LogExit, runChecked d einfo failAt = Except.error r →
      failAt = some r.site ∧ r.site ≠ CallSite.getColorProfileList ∧
      r.deleted = true ∧ r.info = einfo r.site ∧ r.exitCode = 1) ∧
    (∀ c : SetupDone, runChecked d einfo failAt = Except.ok c →
      ∀ s, failAt = some s → s ≠ CallSite.getColorProfileList →
        s ∉ c.executed) ∧
    ((runChecked d einfo (some CallSite.getColorProfileList)).isOk = true) ∧
    (∀ c : SetupDone,
      runChecked d einfo (some CallSite.getColorProfileList) = Except.ok c →
      c.align = AlignMode.disabled ∧ c.colorProfile = none ∧
        c.colorErrorConsumed = true) := by
  refine ⟨?_, ?_, ?_, ?_, ?_⟩
  · have hnone := c7RunPost d einfo none
    cases hres : runChecked d einfo none with
    | error r =>
      rw [hres] at hnone
      simp [c7Post] at hnone
    | ok c => simp [Except.isOk, Except.toBool]
  · intro r h
    have hpost := c7RunPost d einfo failAt
    rw [h] at hpost
    exact hpost
  · intro c h s hs hne
    have hpost := c7RunPost d einfo failAt
    rw [h] at hpost
    exact hpost.1 s hs hne
  · have hcolor := c7RunPost d einfo (some CallSite.getColorProfileList)
    cases hres : runChecked d einfo (some CallSite.getColorProfileList) with
    | error r =>
      rw [hres] at hcolor
      obtain ⟨h1, h2, _⟩ := hcolor
      exact absurd (Option.some.inj h1).symm h2
    | ok c => simp [Except.isOk, Except.toBool]
  · intro c h
    have hcolor := c7RunPost d einfo (some CallSite.getColorProfileList)
    rw [h] at hcolor
    exact hcolor.2 rfl

/-- Device error diagnostics used for concrete witnesses. -/
def einfoZero : CallSite → ErrorInfo :=
  fun _ => { fn := 0, args := 0, msg := 0, excType := 0 }

/-- Device used for the claim C7 witness. -/
def deviceC7 : Device :=
  { colorProfiles := some [⟨0, 30⟩]
    hwList := [⟨1, 30⟩]
    swList := []
    plainList := [] }

/-- The error exit produced when the pipeline start call fails on
deviceC7. -/
def logExitC7 : LogExit :=
  { site := CallSite.startPipelineWithConfig
    info := einfoZero CallSite.startPipelineWithConfig
    deleted := true
    exitCode := 1 }

/-- Witness for claim C7 at a concrete device, diagnostics function and
failing call: the injected pipeline-start failure terminates the run with
its own site logged, deleted and exit code 1. -/
theorem c7_fatal_error_terminates_except_color_witness :
    some CallSite.startPipelineWithConfig = some logExitC7.site ∧
    logExitC7.site ≠ CallSite.getColorProfileList ∧
    logExitC7.deleted = true ∧ logExitC7.info = einfoZero logExitC7.site ∧
    logExitC7.exitCode = 1 :=
  (c7_fatal_error_terminates_except_color deviceC7 einfoZero
    (some CallSite.startPipelineWithConfig)).2.1 logExitC7 rfl
